import Mathlib

/-!
Verification of `src/gui_app.py` (a single-file Streamlit RAG tutor app).

The development shallowly embeds the two original pieces of logic of the
program:

* the startup sequence (API-key lookup from `st.secrets`, then the
  build-or-load index persistence decision in `init_expert_system`), modelled
  as a pure function from the observable file-system state to a trace of
  externally visible effects, a final outcome and the resulting file-system
  state;

* the chat-turn relay (the `st.chat_input` handler, lines 88-116), modelled
  as a pure function of the current session history, the raw user prompt and
  an oracle for the external conversational engine.

Everything that the third-party libraries do internally is abstracted into
trace events (document loading, index build, persistence, index load) or
oracle values (the engine response object), exactly at the call boundaries
that appear in the source.
-/

set_option autoImplicit false

/-- `PERSIST_DIR = "./storage"` from gui_app.py line 27. -/
def PERSIST_DIR : String := "./storage"

/-- `DATA_DIR = "./data"` from gui_app.py line 28. -/
def DATA_DIR : String := "./data"

/-- The error message shown when the API key is missing (line 23). -/
def errorNoKey : String :=
  "❌ 找不到 GOOGLE_API_KEY！請在 Streamlit Cloud 的 Advanced settings > Secrets 中設定。"

/-- The error message shown when the document directory is missing or empty
(line 47, an f-string interpolating `DATA_DIR`). -/
def errorNoData : String :=
  "❌ 找不到教材！請確保 GitHub 的 '" ++ DATA_DIR ++ "' 資料夾內有 PDF。"

/-- Observable file-system state relevant to startup: whether the persisted
index directory exists (`os.path.exists(PERSIST_DIR)`), whether the raw
document directory exists (`os.path.exists(DATA_DIR)`), and its listing
(`os.listdir(DATA_DIR)`). -/
structure FS where
  persistDirExists : Bool
  dataDirExists : Bool
  dataFiles : List String
deriving DecidableEq

/-- Externally visible effects performed during startup, one constructor per
third-party call boundary in the source. `buildIndex` stands for
`VectorStoreIndex.from_documents`, which computes the embeddings (a network
call to the embedding endpoint) and builds the vector index. -/
inductive Ev where
  /-- `Settings.llm = Gemini(...)` and `Settings.embed_model = GeminiEmbedding(...)`
  (lines 35-42): pure local configuration, no network or file access. -/
  | configureModels
  /-- `st.error(msg)` (lines 23, 47). -/
  | showError (msg : String)
  /-- `SimpleDirectoryReader(dir).load_data()` (line 50): reads the raw
  document directory. -/
  | loadDocuments (dir : String)
  /-- `VectorStoreIndex.from_documents(documents)` (line 51): computes
  embeddings and builds a fresh index. -/
  | buildIndex
  /-- `index.storage_context.persist(persist_dir=dir)` (line 52). -/
  | persistIndex (dir : String)
  /-- `load_index_from_storage` on `StorageContext.from_defaults(persist_dir=dir)`
  (lines 54-55). -/
  | loadIndex (dir : String)
deriving DecidableEq

/-- Outcome of startup: `halted` models `st.stop()` (the script is aborted
before serving any interaction); `ready` models reaching the construction of
the chat engine and returning its handle. -/
inductive Outcome where
  | halted
  | ready
deriving DecidableEq

/-- Shallow embedding of `init_expert_system` (gui_app.py lines 32-70): model
configuration, then the index persistence decision (lines 45-55).  Returns
the effect trace, the outcome, and the file system after the run (persisting
the index creates the persisted-index directory). -/
def initExpertSystem (fs : FS) : List Ev × Outcome × FS :=
  if !fs.persistDirExists then
    if !fs.dataDirExists || fs.dataFiles.isEmpty then
      ([Ev.configureModels, Ev.showError errorNoData], Outcome.halted, fs)
    else
      ([Ev.configureModels, Ev.loadDocuments DATA_DIR, Ev.buildIndex,
        Ev.persistIndex PERSIST_DIR],
       Outcome.ready, { fs with persistDirExists := true })
  else
    ([Ev.configureModels, Ev.loadIndex PERSIST_DIR], Outcome.ready, fs)

/-- Shallow embedding of the whole startup sequence: the
`st.secrets["GOOGLE_API_KEY"]` lookup guarded by try/except (lines 19-24,
`apiKey = none` models the key being absent, in which case `st.error` and
`st.stop()` run and nothing else happens), followed by
`init_expert_system()` (line 73). -/
def startup (apiKey : Option String) (fs : FS) : List Ev × Outcome × FS :=
  match apiKey with
  | none => ([Ev.showError errorNoKey], Outcome.halted, fs)
  | some _ => initExpertSystem fs

/-- C1: with the persisted index present, startup loads it from the fixed
path and performs no document read, no build, no persist — regardless of the
state of the document directory. -/
theorem c1_load_branch_trusts_persisted_index (key : String) (fs : FS)
    (h : fs.persistDirExists = true) :
    startup (some key) fs = ([Ev.configureModels, Ev.loadIndex PERSIST_DIR], Outcome.ready, fs)
    ∧ (∀ d, Ev.loadDocuments d ∉ (startup (some key) fs).1)
    ∧ Ev.buildIndex ∉ (startup (some key) fs).1
    ∧ (∀ d, Ev.persistIndex d ∉ (startup (some key) fs).1) := by
  simp [startup, initExpertSystem, h]

/-- Witness for C1 at a concrete state: persisted index present, document
directory absent and empty — the index is still loaded, nothing rebuilt. -/
theorem c1_witness :
    (FS.mk true false []).persistDirExists = true
    ∧ (startup (some "k") (FS.mk true false [])
        = ([Ev.configureModels, Ev.loadIndex PERSIST_DIR], Outcome.ready, FS.mk true false [])
      ∧ (∀ d, Ev.loadDocuments d ∉ (startup (some "k") (FS.mk true false [])).1)
      ∧ Ev.buildIndex ∉ (startup (some "k") (FS.mk true false [])).1
      ∧ (∀ d, Ev.persistIndex d ∉ (startup (some "k") (FS.mk true false [])).1)) :=
  ⟨rfl, c1_load_branch_trusts_persisted_index "k" (FS.mk true false []) rfl⟩

/-- C2: with the API credential absent, startup shows the error and halts;
the trace holds nothing but that error — no document access, no index
construction or load, no network-facing call. -/
theorem c2_missing_key_halts (fs : FS) :
    startup none fs = ([Ev.showError errorNoKey], Outcome.halted, fs)
    ∧ (∀ d, Ev.loadDocuments d ∉ (startup none fs).1)
    ∧ Ev.buildIndex ∉ (startup none fs).1
    ∧ (∀ d, Ev.loadIndex d ∉ (startup none fs).1)
    ∧ Ev.configureModels ∉ (startup none fs).1 := by
  simp [startup]

/-- C3: no persisted index and a missing-or-empty document directory: startup
shows the materials error and halts, and never loads documents, builds or
persists an index. -/
theorem c3_cold_start_without_documents_halts (key : String) (fs : FS)
    (h1 : fs.persistDirExists = false)
    (h2 : fs.dataDirExists = false ∨ fs.dataFiles = []) :
    startup (some key) fs = ([Ev.configureModels, Ev.showError errorNoData], Outcome.halted, fs)
    ∧ (∀ d, Ev.loadDocuments d ∉ (startup (some key) fs).1)
    ∧ Ev.buildIndex ∉ (startup (some key) fs).1
    ∧ (∀ d, Ev.persistIndex d ∉ (startup (some key) fs).1) := by
  rcases h2 with h2 | h2 <;> simp [startup, initExpertSystem, h1, h2]

/-- Witness for C3: document directory exists but is empty, no persisted
index. -/
theorem c3_witness :
    (FS.mk false true []).persistDirExists = false
    ∧ ((FS.mk false true []).dataDirExists = false ∨ (FS.mk false true []).dataFiles = [])
    ∧ (startup (some "k") (FS.mk false true [])
        = ([Ev.configureModels, Ev.showError errorNoData], Outcome.halted, FS.mk false true [])
      ∧ (∀ d, Ev.loadDocuments d ∉ (startup (some "k") (FS.mk false true [])).1)
      ∧ Ev.buildIndex ∉ (startup (some "k") (FS.mk false true [])).1
      ∧ (∀ d, Ev.persistIndex d ∉ (startup (some "k") (FS.mk false true [])).1)) :=
  ⟨rfl, Or.inr rfl,
    c3_cold_start_without_documents_halts "k" (FS.mk false true []) rfl (Or.inr rfl)⟩

/-- C4: cold start with documents available builds and persists the index to
the fixed path, after which the persisted directory exists; the second run on
the resulting state takes the load branch and performs no rebuild. -/
theorem c4_second_run_loads_instead_of_rebuilding (key : String) (fs : FS)
    (h1 : fs.persistDirExists = false)
    (h2 : fs.dataDirExists = true)
    (h3 : fs.dataFiles ≠ []) :
    (startup (some key) fs).1
      = [Ev.configureModels, Ev.loadDocuments DATA_DIR, Ev.buildIndex,
         Ev.persistIndex PERSIST_DIR]
    ∧ (startup (some key) fs).2.1 = Outcome.ready
    ∧ (startup (some key) fs).2.2.persistDirExists = true
    ∧ startup (some key) (startup (some key) fs).2.2
        = ([Ev.configureModels, Ev.loadIndex PERSIST_DIR], Outcome.ready,
           (startup (some key) fs).2.2)
    ∧ Ev.buildIndex ∉ (startup (some key) (startup (some key) fs).2.2).1 := by
  simp [startup, initExpertSystem, h1, h2, h3]

/-- Witness for C4 at a concrete cold-start state with one document. -/
theorem c4_witness :
    (FS.mk false true ["ch3.pdf"]).persistDirExists = false
    ∧ (FS.mk false true ["ch3.pdf"]).dataDirExists = true
    ∧ (FS.mk false true ["ch3.pdf"]).dataFiles ≠ []
    ∧ ((startup (some "k") (FS.mk false true ["ch3.pdf"])).1
        = [Ev.configureModels, Ev.loadDocuments DATA_DIR, Ev.buildIndex,
           Ev.persistIndex PERSIST_DIR]
      ∧ (startup (some "k") (FS.mk false true ["ch3.pdf"])).2.1 = Outcome.ready
      ∧ (startup (some "k") (FS.mk false true ["ch3.pdf"])).2.2.persistDirExists = true
      ∧ startup (some "k") (startup (some "k") (FS.mk false true ["ch3.pdf"])).2.2
          = ([Ev.configureModels, Ev.loadIndex PERSIST_DIR], Outcome.ready,
             (startup (some "k") (FS.mk false true ["ch3.pdf"])).2.2)
      ∧ Ev.buildIndex
          ∉ (startup (some "k") (startup (some "k") (FS.mk false true ["ch3.pdf"])).2.2).1) :=
  ⟨rfl, rfl, by decide,
    c4_second_run_loads_instead_of_rebuilding "k" (FS.mk false true ["ch3.pdf"])
      rfl rfl (by decide)⟩

/-- Roles of chat messages as stored in `st.session_state.messages`. -/
inductive Role where
  | user
  | assistant
deriving DecidableEq

/-- One entry of `st.session_state.messages`: a Python dict with keys
`"role"`, `"content"`, and — only for the assistant entries appended at line
112 — `"sources"`.  `sources = none` models the key being absent. -/
structure Msg where
  role : Role
  content : String
  sources : Option String
deriving DecidableEq

/-- One element of `response.source_nodes`: `fileName = none` models
`node.metadata` lacking the `'file_name'` key; `score = none` models
`node.score` being `None`.  Scores are modelled as rationals. -/
structure SourceNode where
  fileName : Option String
  score : Option ℚ
deriving DecidableEq

/-- The response object a `chat_engine.chat` call returns: its string
representation `str(response)` and, when the object has the `source_nodes`
attribute, the list of source nodes (`sourceNodes = none` models
`hasattr(response, 'source_nodes')` being false). -/
structure ChatResponse where
  text : String
  sourceNodes : Option (List SourceNode)
deriving DecidableEq

/-- The character of a decimal digit: `digitChar n` renders `n % 10`. -/
def digitChar (n : Nat) : Char := Char.ofNat (48 + n % 10)

/-- Model of CPython's fixed-point formatting `f"{x:.2f}"` (line 104) on
rationals: the value is scaled by 100 and rounded to an integer, then
rendered with a sign, the integer part and exactly two digits after the
point.  (CPython breaks exact half-way ties to even; such ties play no role
in any claim here, and `round` stands in for the rounding step.) -/
def fmtTwoDecimals (q : ℚ) : String :=
  let cents : ℤ := round (q * 100)
  let a : Nat := cents.natAbs
  String.mk ((if cents < 0 then ['-'] else [])
    ++ (Nat.repr (a / 100)).data
    ++ '.' :: digitChar (a % 100 / 10) :: [digitChar (a % 100)])

/-- The score string of line 104:
`score = f"{node.score:.2f}" if node.score else "N/A"`.
Python truthiness makes both `None` and `0.0` take the `"N/A"` branch. -/
def scoreStr (score : Option ℚ) : String :=
  match score with
  | none => "N/A"
  | some q => if q = 0 then "N/A" else fmtTwoDecimals q

/-- The fallback file name of line 103: `node.metadata.get('file_name', '未知章節')`. -/
def fallbackFileName : String := "未知章節"

/-- One rendered citation entry (line 105), for the node at 0-based index `i`:
`f"**[文獻片段 {i+1}]** `{fname}` (關聯權重: {score})\n\n"`. -/
def citationEntry (i : Nat) (node : SourceNode) : String :=
  "**[文獻片段 " ++ Nat.repr (i + 1) ++ "]** `"
    ++ node.fileName.getD fallbackFileName
    ++ "` (關聯權重: " ++ scoreStr node.score ++ ")\n\n"

/-- The full `ref_info` string built by the loop of lines 100-105: empty when
the response lacks the `source_nodes` attribute, else the concatenation of
the citation entries in order of enumeration. -/
def refInfo (resp : ChatResponse) : String :=
  match resp.sourceNodes with
  | none => ""
  | some nodes => String.join (nodes.enum.map (fun p => citationEntry p.1 p.2))

/-- The fixed instruction suffix appended to every user prompt before the
engine call (line 96). -/
def languageSuffix : String := " (注意：請務必以繁體中文回答，嚴禁簡體)"

/-- The behaviour of one `chat_engine.chat` call: either it returns a
response object, or it raises (`exn`) — the code has no handler, so a raise
aborts the rest of the turn. -/
inductive EngineResult where
  | ok (resp : ChatResponse)
  | exn
deriving DecidableEq

/-- UI output primitives of the turn handler: `st.markdown` of a string, or
the expander panel holding a citation string (`st.expander` + `st.write`). -/
inductive Render where
  | markdown (s : String)
  | sourcesPanel (s : String)
deriving DecidableEq

/-- Everything one execution of the `st.chat_input` handler produces: the
session history after the turn, the UI output of the turn in order, and the
exact string passed to `chat_engine.chat`. -/
structure TurnOutput where
  history : List Msg
  rendered : List Render
  sent : Option String
deriving DecidableEq

/-- Shallow embedding of the `st.chat_input` handler (lines 88-116), given
the current history, the raw user prompt, and the engine as an oracle.  The
user entry is appended and displayed first (lines 89-91); then the engine is
called on the prompt with `languageSuffix` appended (line 96).  If the call
raises, the turn ends there (no handler exists).  Otherwise `answer =
str(response)` is displayed, the citation panel is shown only when
`ref_info` is non-empty (line 108), and the assistant entry — always
carrying the `sources` key — is appended (lines 112-116). -/
def runTurn (history : List Msg) (prompt : String) (engine : String → EngineResult) :
    TurnOutput :=
  let h1 := history ++ [{ role := Role.user, content := prompt, sources := none }]
  let payload := prompt ++ languageSuffix
  match engine payload with
  | EngineResult.exn =>
      { history := h1, rendered := [Render.markdown prompt], sent := some payload }
  | EngineResult.ok resp =>
      let answer := resp.text
      let ref := refInfo resp
      { history := h1 ++ [{ role := Role.assistant, content := answer, sources := some ref }],
        rendered := [Render.markdown prompt, Render.markdown answer]
          ++ (if ref = "" then [] else [Render.sourcesPanel ref]),
        sent := some payload }

/-- Rendering of one stored message by the history-replay loop (lines 80-85):
the content is always shown; the expander panel is shown exactly when the
role is assistant and the `"sources"` key is present — with no check that the
stored citation string is non-empty. -/
def renderMsg (m : Msg) : List Render :=
  Render.markdown m.content ::
    (match m.role, m.sources with
     | Role.assistant, some s => [Render.sourcesPanel s]
     | _, _ => [])

/-- The full replay of the stored history (lines 80-85), in order. -/
def replayHistory (msgs : List Msg) : List Render :=
  (msgs.map renderMsg).flatten

/-- The session history after a sequence of user inputs, starting from the
empty history of line 77, each turn run by `runTurn`. -/
def runSession (engine : String → EngineResult) (prompts : List String) : List Msg :=
  prompts.foldl (fun h p => (runTurn h p engine).history) []

/-- A character list ending in a rendered decimal part is never the three
characters of the placeholder: the placeholder holds no dot. -/
lemma ends_in_decimal_ne_placeholder (l1 l2 : List Char) (c1 c2 : Char) :
    l1 ++ l2 ++ '.' :: c1 :: [c2] ≠ ['N', '/', 'A'] := by
  intro h
  have hm : '.' ∈ (['N', '/', 'A'] : List Char) := by
    rw [← h]; simp
  simp at hm

/-- The fixed-point rendering of a score is never the placeholder string. -/
lemma fmtTwoDecimals_ne_NA (q : ℚ) : fmtTwoDecimals q ≠ "N/A" := by
  unfold fmtTwoDecimals
  intro h
  exact ends_in_decimal_ne_placeholder _ _ _ _ (congrArg String.data h)

lemma digitChar_isDigit (n : Nat) : (digitChar n).isDigit = true := by
  unfold digitChar
  have h : n % 10 < 10 := Nat.mod_lt _ (by norm_num)
  interval_cases h : n % 10 <;> decide

/-- The fixed-point rendering always ends in a dot followed by exactly two
digit characters. -/
lemma fmtTwoDecimals_decomp (q : ℚ) :
    ∃ t c1 c2, fmtTwoDecimals q = t ++ String.mk ['.', c1, c2]
      ∧ c1.isDigit = true ∧ c2.isDigit = true := by
  unfold fmtTwoDecimals
  refine ⟨String.mk ((if round (q * 100) < 0 then ['-'] else [])
      ++ (Nat.repr ((round (q * 100)).natAbs / 100)).data),
    digitChar ((round (q * 100)).natAbs % 100 / 10),
    digitChar ((round (q * 100)).natAbs % 100),
    rfl, digitChar_isDigit _, digitChar_isDigit _⟩

/-- Exactly when the score string is the placeholder: the score is absent —
or present and equal to zero, because line 104 tests Python truthiness of
`node.score`, and `0.0` is falsy. -/
lemma scoreStr_eq_NA_iff (s : Option ℚ) :
    scoreStr s = "N/A" ↔ s = none ∨ s = some 0 := by
  cases s with
  | none => simp [scoreStr]
  | some q =>
    by_cases hq : q = 0
    · simp [scoreStr, hq]
    · simp [scoreStr, hq, fmtTwoDecimals_ne_NA q]

/-- C5: the exact string handed to `chat_engine.chat` is the raw user prompt
with the fixed language-enforcement suffix appended, whatever the engine
then does. -/
theorem c5_forwarded_text (history : List Msg) (prompt : String)
    (engine : String → EngineResult) :
    (runTurn history prompt engine).sent = some (prompt ++ languageSuffix) := by
  unfold runTurn
  cases hE : engine (prompt ++ languageSuffix) <;> simp [hE]

/-- Counterexample to C6 as stated: a node whose score is present but equal
to zero still gets the `N/A` placeholder in its citation entry, because line
104 tests Python truthiness of `node.score` rather than its presence. -/
theorem c6_counterexample_zero_score_gets_placeholder :
    (SourceNode.mk (some "ch3.pdf") (some 0)).score ≠ none
    ∧ citationEntry 0 (SourceNode.mk (some "ch3.pdf") (some 0))
        = "**[文獻片段 1]** `ch3.pdf` (關聯權重: N/A)\n\n" := by
  refine ⟨by simp, ?_⟩
  rfl

/-- C6 (amended): every citation entry embeds the node's file name (or the
fallback) and its score string; the score string is the placeholder exactly
when the score is absent or zero, and any other score is rendered in fixed-
point form ending in a dot and exactly two digits. -/
theorem c6_citation_entry_fields (i : Nat) (node : SourceNode) :
    (∃ l r, (citationEntry i node).data
        = l ++ (node.fileName.getD fallbackFileName).data ++ r)
    ∧ (∃ l r, (citationEntry i node).data
        = l ++ (scoreStr node.score).data ++ r)
    ∧ (scoreStr node.score = "N/A" ↔ node.score = none ∨ node.score = some 0)
    ∧ (∀ q, node.score = some q → q ≠ 0 →
        scoreStr node.score = fmtTwoDecimals q
        ∧ ∃ t c1 c2, fmtTwoDecimals q = t ++ String.mk ['.', c1, c2]
            ∧ c1.isDigit = true ∧ c2.isDigit = true) := by
  refine ⟨?_, ?_, scoreStr_eq_NA_iff node.score, ?_⟩
  · exact ⟨("**[文獻片段 " ++ Nat.repr (i + 1) ++ "]** `").data,
      ("` (關聯權重: " ++ scoreStr node.score ++ ")\n\n").data,
      by simp [citationEntry]⟩
  · exact ⟨("**[文獻片段 " ++ Nat.repr (i + 1) ++ "]** `"
        ++ node.fileName.getD fallbackFileName ++ "` (關聯權重: ").data,
      (")\n\n" : String).data,
      by simp [citationEntry]⟩
  · intro q hq hq0
    refine ⟨by simp [scoreStr, hq, hq0], fmtTwoDecimals_decomp q⟩

/-- C7: on a successful turn, the displayed assistant text and the content of
the assistant entry appended to the history are both exactly the string
representation of the engine's response object. -/
theorem c7_answer_is_str_of_response (history : List Msg) (prompt : String)
    (f : String → ChatResponse) :
    Render.markdown (f (prompt ++ languageSuffix)).text
        ∈ (runTurn history prompt (fun s => EngineResult.ok (f s))).rendered
    ∧ (runTurn history prompt (fun s => EngineResult.ok (f s))).history.getLast?
        = some (Msg.mk Role.assistant (f (prompt ++ languageSuffix)).text
            (some (refInfo (f (prompt ++ languageSuffix))))) := by
  unfold runTurn
  constructor
  · simp
  · simp

/-- One successful turn appends exactly the user entry with the raw prompt
followed by the assistant entry for the response. -/
lemma runTurn_ok_history (history : List Msg) (prompt : String)
    (f : String → ChatResponse) :
    (runTurn history prompt (fun s => EngineResult.ok (f s))).history
      = history
        ++ [Msg.mk Role.user prompt none,
            Msg.mk Role.assistant (f (prompt ++ languageSuffix)).text
              (some (refInfo (f (prompt ++ languageSuffix))))] := by
  simp [runTurn]

/-- Generalised C8 induction: folding the turn handler over a prompt list
extends any starting history by the canonical user/assistant pair of each
prompt, in order. -/
lemma runSession_from (f : String → ChatResponse) (prompts : List String) :
    ∀ acc : List Msg,
      prompts.foldl (fun h p => (runTurn h p (fun s => EngineResult.ok (f s))).history) acc
        = acc ++ (prompts.map (fun p =>
            [Msg.mk Role.user p none,
             Msg.mk Role.assistant (f (p ++ languageSuffix)).text
               (some (refInfo (f (p ++ languageSuffix))))])).flatten := by
  induction prompts with
  | nil => intro acc; simp
  | cons p ps ih =>
    intro acc
    simp only [List.foldl_cons]
    rw [runTurn_ok_history, ih]
    simp

/-- C8: when every turn succeeds, the session history is exactly the ordered
interleaving of a user entry holding the raw prompt followed by the matching
assistant entry, for each prompt in input order. -/
theorem c8_history_alternates_in_order (f : String → ChatResponse)
    (prompts : List String) :
    runSession (fun s => EngineResult.ok (f s)) prompts
      = (prompts.map (fun p =>
          [Msg.mk Role.user p none,
           Msg.mk Role.assistant (f (p ++ languageSuffix)).text
             (some (refInfo (f (p ++ languageSuffix))))])).flatten := by
  unfold runSession
  simpa using runSession_from f prompts []

/-- C9: the user entry is appended to the history before the engine call, so
when the call raises, the turn ends with the history holding the new user
entry and no matching assistant entry: the payload was sent, and the history
ends in the user-role entry. -/
theorem c9_user_appended_before_engine_call (history : List Msg) (prompt : String)
    (engine : String → EngineResult)
    (h : engine (prompt ++ languageSuffix) = EngineResult.exn) :
    (runTurn history prompt engine).sent = some (prompt ++ languageSuffix)
    ∧ (runTurn history prompt engine).history
        = history ++ [Msg.mk Role.user prompt none]
    ∧ (runTurn history prompt engine).history.getLast?
        = some (Msg.mk Role.user prompt none) := by
  unfold runTurn
  simp [h]

/-- Witness for C9: empty history, prompt "hi", an engine that raises. -/
theorem c9_witness :
    (fun _ : String => EngineResult.exn) ("hi" ++ languageSuffix) = EngineResult.exn
    ∧ ((runTurn [] "hi" (fun _ => EngineResult.exn)).sent
          = some ("hi" ++ languageSuffix)
      ∧ (runTurn [] "hi" (fun _ => EngineResult.exn)).history
          = [] ++ [Msg.mk Role.user "hi" none]
      ∧ (runTurn [] "hi" (fun _ => EngineResult.exn)).history.getLast?
          = some (Msg.mk Role.user "hi" none)) :=
  ⟨rfl, c9_user_appended_before_engine_call [] "hi" (fun _ => EngineResult.exn) rfl⟩

/-- C10: the assistant entry appended on a successful turn always carries the
`sources` key (even when the citation string is empty), so the history-replay
loop renders the citation panel for that entry unconditionally, while the
live turn renders the panel exactly when the citation string is non-empty. -/
theorem c10_replay_always_shows_panel (history : List Msg) (prompt : String)
    (engine : String → EngineResult) (resp : ChatResponse)
    (h : engine (prompt ++ languageSuffix) = EngineResult.ok resp) :
    (runTurn history prompt engine).history.getLast?
        = some (Msg.mk Role.assistant resp.text (some (refInfo resp)))
    ∧ (Msg.mk Role.assistant resp.text (some (refInfo resp))).sources.isSome = true
    ∧ Render.sourcesPanel (refInfo resp)
        ∈ replayHistory (runTurn history prompt engine).history
    ∧ (Render.sourcesPanel (refInfo resp) ∈ (runTurn history prompt engine).rendered
        ↔ refInfo resp ≠ "") := by
  refine ⟨?_, rfl, ?_, ?_⟩
  · unfold runTurn; simp [h]
  · have hm : Msg.mk Role.assistant resp.text (some (refInfo resp))
        ∈ (runTurn history prompt engine).history := by
      unfold runTurn; simp [h]
    exact List.mem_flatten.mpr
      ⟨renderMsg (Msg.mk Role.assistant resp.text (some (refInfo resp))),
        List.mem_map_of_mem _ hm, by simp [renderMsg]⟩
  · unfold runTurn
    by_cases hr : refInfo resp = "" <;> simp [h, hr]

/-- Witness for C10: empty history, an engine returning a response with no
source nodes, so the stored citation string is empty and the live panel is
not rendered, yet replay renders it. -/
theorem c10_witness :
    (fun _ : String => EngineResult.ok (ChatResponse.mk "ans" none))
        ("hi" ++ languageSuffix) = EngineResult.ok (ChatResponse.mk "ans" none)
    ∧ ((runTurn [] "hi" (fun _ => EngineResult.ok (ChatResponse.mk "ans" none))).history.getLast?
          = some (Msg.mk Role.assistant (ChatResponse.mk "ans" none).text
              (some (refInfo (ChatResponse.mk "ans" none))))
      ∧ (Msg.mk Role.assistant (ChatResponse.mk "ans" none).text
            (some (refInfo (ChatResponse.mk "ans" none)))).sources.isSome = true
      ∧ Render.sourcesPanel (refInfo (ChatResponse.mk "ans" none))
          ∈ replayHistory (runTurn [] "hi"
              (fun _ => EngineResult.ok (ChatResponse.mk "ans" none))).history
      ∧ (Render.sourcesPanel (refInfo (ChatResponse.mk "ans" none))
            ∈ (runTurn [] "hi"
                (fun _ => EngineResult.ok (ChatResponse.mk "ans" none))).rendered
          ↔ refInfo (ChatResponse.mk "ans" none) ≠ "")) :=
  ⟨rfl, c10_replay_always_shows_panel [] "hi"
    (fun _ => EngineResult.ok (ChatResponse.mk "ans" none)) (ChatResponse.mk "ans" none) rfl⟩
